import Mathlib

/-!
Shallow embedding of the coast_guard repository: the header-correction
logic of correct.py, the configuration loader of config.py, and the
database helpers of database/__init__.py.  Python strings are modelled
as Lean String values, Python floats as rationals, and Python dicts as
association lists with first-match lookup.  Fallible code returns
Except values whose error constructors carry the data of the exception
raised by the source.
-/

/-- Python str.lower, computed on the underlying character lists. -/
def strLower (s : String) : String := String.mk (s.data.map Char.toLower)

/-- Python str.upper, computed on the underlying character lists. -/
def strUpper (s : String) : String := String.mk (s.data.map Char.toUpper)

/-- Python str.endswith, computed on the underlying character lists. -/
def endswith (s suf : String) : Bool := suf.data.isSuffixOf s.data

/-- Python str.startswith, computed on the underlying character lists. -/
def startswith (s pre : String) : Bool := pre.data.isPrefixOf s.data

/-- Python os.path.split(fn)[-1]: the part of the path after the last slash. -/
def basenameOf (fn : String) : String :=
  String.mk (fn.data.foldl (fun acc c => if c = '/' then [] else acc ++ [c]) [])

/-- First-match association-list lookup falling back to a second dict,
    the shape of a Python dict built by successive update calls. -/
def optOr (a b : Option α) : Option α :=
  match a with
  | some x => some x
  | none => b

/-- Python d[k] = v on an association list: replace the first binding of k,
    or append a new binding at the end (dict insertion order). -/
def dictSet (d : List (String × α)) (k : String) (v : α) : List (String × α) :=
  match d with
  | [] => [(k, v)]
  | (k0, v0) :: rest => if k0 == k then (k0, v) :: rest else (k0, v0) :: dictSet rest k v

/-- Python d.update(nd): set every binding of nd into d, in order. -/
def dictUpdate (d nd : List (String × α)) : List (String × α) :=
  nd.foldl (fun acc kv => dictSet acc kv.1 kv.2) d

/-- Concatenation of a list of lists (the bindings of several files in order). -/
def joinL : List (List α) → List α
  | [] => []
  | l :: ls => l ++ joinL ls

/- ===== correct.py ===== -/

/-- The RCVR_INFO table of correct.py (fixed psredit fragments per receiver). -/
def RCVR_INFO (r : String) : String :=
  if r == "P217-3" then "rcvr:name=P217-3,rcvr:hand=-1,rcvr:basis=cir"
  else if r == "S110-1" then "rcvr:name=S110-1,rcvr:hand=-1,rcvr:basis=cir"
  else if r == "P200-3" then "rcvr:name=P200-3,rcvr:hand=-1,rcvr:basis=cir"
  else if r == "S60-2" then "rcvr:name=S60-2,rcvr:hand=-1,rcvr:basis=cir"
  else if r == "S36-5" then "rcvr:name=S36-5,rcvr:hand=-1,rcvr:basis=cir"
  else ""

/-- Numpy boolean-mask selection a[mask] for the per-channel data. -/
def maskSelect : List ℚ → List Bool → List ℚ
  | [], _ => []
  | _ :: _, [] => []
  | x :: xs, w :: ws => if w then x :: maskSelect xs ws else maskSelect xs ws

/-- Numpy a.mean(): sum over length (0 on the empty list, standing in for
    the NaN that numpy produces there; the claims are guarded away from it). -/
def meanQ (l : List ℚ) : ℚ := l.sum / (l.length : ℚ)

/-- correct.py line 106: mean of the per-channel standard deviations over the
    weight-true channels of the first nchan/8 channels (floor division). -/
def lbandBot (stddevs : List ℚ) (chnwts : List Bool) : ℚ :=
  meanQ (maskSelect (stddevs.take (stddevs.length / 8)) (chnwts.take (stddevs.length / 8)))

/-- correct.py line 107: the same mean over the remaining channels. -/
def lbandTop (stddevs : List ℚ) (chnwts : List Bool) : ℚ :=
  meanQ (maskSelect (stddevs.drop (stddevs.length / 8)) (chnwts.drop (stddevs.length / 8)))

/-- correct.py lines 90-118: receiver determination from the band field,
    with the L-band top/bot ratio test.  stddevs and chnwts model the
    channel standard deviations and boolean channel weights. -/
def determineRcvr (band : String) (stddevs : List ℚ) (chnwts : List Bool) :
    Except String String :=
  if band == "Cband" then .ok "S60-2"
  else if band == "Xband" then .ok "S36-5"
  else if band == "Sband" then .ok "S110-1"
  else if band == "Lband" then
    if lbandTop stddevs chnwts / lbandBot stddevs chnwts > 5 then .ok "P200-3"
    else if lbandTop stddevs chnwts / lbandBot stddevs chnwts < 2 then .ok "P217-3"
    else .error "Cannot determine receiver."
  else .error ("Not set up to correct headers for " ++ band ++ " observations.")

/-- The header fields of the archive file read by correct_header. -/
structure ArchiveHdr where
  band : String
  rcvr : String
  name : String
  ra : String
deriving DecidableEq

/-- correct.py lines 119-121: note when the recorded receiver disagrees. -/
def rcvrWrongNote (hdrRcvr rcvr : String) : String :=
  if hdrRcvr = rcvr then ""
  else "Receiver is wrong (" ++ hdrRcvr ++ ") setting to \x27" ++ rcvr ++ "\x27. "

/-- correct.py lines 123-124: the condition guarding coordinate correction. -/
def coordAttempted (obsinfoGiven : Bool) (hdr : ArchiveHdr) : Bool :=
  obsinfoGiven || endswith hdr.name "_R" || startswith hdr.ra "00:00:00"

/-- correct.py lines 123-132: the coordinate fragment appended to corrstr and
    the text appended to the note.  coordResult models the outcome of
    get_coordinates (ok carries the rastr and decstr pair, error carries the
    message of the HeaderCorrection exception). -/
def coordParts (obsinfoGiven : Bool) (hdr : ArchiveHdr)
    (coordResult : Except String (String × String)) : String × String :=
  if coordAttempted obsinfoGiven hdr then
    match coordResult with
    | .error msg => ("", msg ++ "\n(Could not correct coordinates)")
    | .ok (rastr, decstr) => (",coord=" ++ rastr ++ decstr, "")
  else ("", "No reason to correct coords.")

/-- correct.py lines 134-148: the observation-type fragment appended to
    corrstr, keyed on the source name and the flux-calibrator name list. -/
def classifyType (name : String) (fluxcals : List String) : String :=
  if endswith name "_R" then
    if fluxcals.any (fun f => startswith name f) then
      if endswith name "_S_R" || endswith name "_N_R" then ",type=FluxCal-Off"
      else if endswith name "_O_R" then ",type=FluxCal-On"
      else ""
    else ",type=PolnCal"
  else ",type=Pulsar"

/-- The corrstr and note assembled by correct_header once the receiver is
    known (correct.py lines 119-148). -/
def assembleCorrections (rcvr : String) (hdr : ArchiveHdr) (obsinfoGiven : Bool)
    (coordResult : Except String (String × String)) (fluxcals : List String)
    (backend : String) : String × String :=
  (RCVR_INFO rcvr ++ ",be:name=" ++ backend
     ++ (coordParts obsinfoGiven hdr coordResult).1
     ++ classifyType hdr.name fluxcals,
   rcvrWrongNote hdr.rcvr rcvr ++ (coordParts obsinfoGiven hdr coordResult).2)

/-- correct.py correct_header, up to the invocation of psredit: computes the
    correction parameter string and the note, or the HeaderCorrection error
    raised during receiver determination. -/
def correct_header (hdr : ArchiveHdr) (stddevs : List ℚ) (chnwts : List Bool)
    (obsinfoGiven : Bool) (coordResult : Except String (String × String))
    (fluxcals : List String) (backend : String) :
    Except String (String × String) :=
  match determineRcvr hdr.band stddevs chnwts with
  | .error e => .error e
  | .ok rcvr => .ok (assembleCorrections rcvr hdr obsinfoGiven coordResult fluxcals backend)

/- ===== correct.py: observing-log search ===== -/

/-- correct.py line 20. -/
def HOURS_PER_MIN : ℚ := 1/60

/-- One parsed observing-log entry (OBSLOG_FIELDS of correct.py): the local
    date is modelled as a day number, the start times as fractional hours. -/
structure ObsEntry where
  localdate : Int
  scannum : String
  utcstart : ℚ
  lststart : ℚ
  name : String
  az : ℚ
  alt : ℚ
  catalog_rastr : String
  catalog_decstr : String
deriving DecidableEq

/-- The loop state of the get_obslog_entry scan (correct.py lines 228-250). -/
structure ScanState where
  logentries : List ObsEntry
  check : Bool
  previnfo : Option ObsEntry
deriving DecidableEq

/-- The bracket test of correct.py lines 239-242, applied when the check flag
    was armed by the previous entry. -/
def matchesEntry (obsdate : Int) (obsutcHours : ℚ) (previnfo currinfo : ObsEntry) : Bool :=
  decide (previnfo.localdate ≤ obsdate) && decide (obsdate ≤ currinfo.localdate) &&
  decide (previnfo.utcstart - HOURS_PER_MIN ≤ obsutcHours) &&
  decide (obsutcHours ≤ currinfo.utcstart + HOURS_PER_MIN)

/-- One iteration of the get_obslog_entry scan over a log line: a line that
    fails to parse (none) leaves the state untouched (the continue on line
    237); a parsed entry is tested against the armed previous entry, then
    arms the check flag when its normalized source name equals the target
    name (line 248) and becomes the previous entry. -/
def scanStep (target : String) (normalize : String → String) (obsdate : Int)
    (obsutcHours : ℚ) (st : ScanState) (line : Option ObsEntry) : ScanState :=
  match line with
  | none => st
  | some currinfo =>
    let entries :=
      match st.check, st.previnfo with
      | true, some previnfo =>
        if matchesEntry obsdate obsutcHours previnfo currinfo
        then st.logentries ++ [previnfo] else st.logentries
      | _, _ => st.logentries
    { logentries := entries,
      check := normalize currinfo.name == target,
      previnfo := some currinfo }

/-- The full scan of correct.py lines 228-250 over the parsed lines of the
    selected log files, started from the empty state. -/
def scanLines (target : String) (normalize : String → String) (obsdate : Int)
    (obsutcHours : ℚ) (lines : List (Option ObsEntry)) : ScanState :=
  lines.foldl (scanStep target normalize obsdate obsutcHours) ⟨[], false, none⟩

/-- The matching condition as the specification words it: the target date
    between the two entry dates inclusively, and the target UTC time of day
    within one minute of the start time of the previous entry and within one
    minute of the start time of the current entry. -/
def specWithinOneMinuteOfBoth (obsdate : Int) (obsutcHours : ℚ)
    (previnfo currinfo : ObsEntry) : Bool :=
  decide (previnfo.localdate ≤ obsdate) && decide (obsdate ≤ currinfo.localdate) &&
  decide (|obsutcHours - previnfo.utcstart| ≤ HOURS_PER_MIN) &&
  decide (|obsutcHours - currinfo.utcstart| ≤ HOURS_PER_MIN)

/- ===== database/__init__.py ===== -/

/-- Outcome of the row accessor fancy_getitem: the value found, or the data
    carried by the BadColumnNameError message (the ambiguous matches, or the
    sorted list of valid column names). -/
inductive LookupResult where
  | ok (v : String)
  | ambiguous (key : String) (ms : List String)
  | unknown (key : String) (valid : List String)
deriving DecidableEq

/-- Lexicographic character-list comparison, the order Python sorted uses
    on strings. -/
def lexLt : List Char → List Char → Bool
  | [], [] => false
  | [], _ :: _ => true
  | _ :: _, [] => false
  | a :: as, b :: bs => if a < b then true else if b < a then false else lexLt as bs

/-- Insertion into a sorted list of strings. -/
def insertSorted (s : String) : List String → List String
  | [] => [s]
  | t :: ts => if lexLt t.data s.data then t :: insertSorted s ts else s :: t :: ts

/-- Python sorted on a list of strings. -/
def sortStrings (l : List String) : List String := l.foldr insertSorted []

/-- database/__init__.py lines 22-35: lookup of a (suffix-stripped) key in a
    row, with the fold function applied to any value found: exact column
    match first, then the unique column having the key as a leading part,
    else a BadColumnNameError.  The row is an association list with the
    distinct column names in order. -/
def lookup_with_filter (row : List (String × String)) (filterfunc : String → String)
    (key : String) : LookupResult :=
  match List.lookup key row with
  | some v => .ok (filterfunc v)
  | none =>
    match row.filter (fun p => startswith p.1 key) with
    | [p] => .ok (filterfunc p.2)
    | [] => .unknown key (sortStrings (row.map Prod.fst))
    | ps => .ambiguous key (ps.map Prod.fst)

/-- database/__init__.py lines 14-35: the full row accessor, stripping a
    trailing _L or _U from the key and folding the retrieved value to lower
    or upper case accordingly. -/
def fancy_getitem (row : List (String × String)) (key : String) : LookupResult :=
  if endswith key "_L" then lookup_with_filter row strLower (key.dropRight 2)
  else if endswith key "_U" then lookup_with_filter row strUpper (key.dropRight 2)
  else lookup_with_filter row id key

/-- The process-wide engine cache of database/__init__.py: engine handles are
    modelled as numbers issued by a fresh counter (sa.create_engine returning
    a new object each time). -/
structure EngineState where
  engines : List (String × Nat)
  nextId : Nat
deriving DecidableEq

/-- database/__init__.py lines 108-134: return the cached engine for the URL
    (the configured default when the argument is omitted), creating and
    caching a new one when absent. -/
def get_engine (st : EngineState) (url : Option String) (dburl : String) :
    Nat × EngineState :=
  let u := url.getD dburl
  match List.lookup u st.engines with
  | some e => (e, st)
  | none => (st.nextId, ⟨st.engines ++ [(u, st.nextId)], st.nextId + 1⟩)

/-- Well-formedness of the engine cache: every cached handle was issued by
    the counter, and no handle is cached twice.  The empty cache the module
    starts from satisfies it, and get_engine preserves it. -/
def wfEngineState (st : EngineState) : Prop :=
  (∀ p ∈ st.engines, p.2 < st.nextId) ∧ (st.engines.map Prod.snd).Nodup

/- ===== config.py ===== -/

/-- The errors of config.py as exercised by the claims: ValueError from the
    validations of read_file (the InvalidInput kind of the specification),
    the IOError execfile raises on a missing non-required file, and the
    KeyError of the site-to-telescope lookup. -/
inductive CfgError where
  | invalidInput (msg : String)
  | ioError
  | keyError
deriving DecidableEq

/-- config.py line 35: the basename of the file with its last four
    characters (the .cfg extension) stripped. -/
def cfgKey (fn : String) : String := (basenameOf fn).dropRight 4

/-- The state of a CoastGuardConfigs object: the per-file dictionaries and
    the merged configuration, both as insertion-ordered association lists
    over integer-valued bindings. -/
structure CoastGuardConfigs where
  config_dicts : List (String × List (String × Int))
  configs : List (String × Int)
deriving DecidableEq

/-- config.py lines 28-39: read_file.  The bindings argument models the
    variables the execfile call captures from the file, and fileExists
    models os.path.isfile. -/
def read_file (cfgs : CoastGuardConfigs) (fn : String) (bindings : List (String × Int))
    (fileExists required : Bool) : Except CfgError CoastGuardConfigs :=
  if required && !fileExists then
    .error (.invalidInput ("Configuration file (" ++ fn ++ ") doesn\x27t exist and is required!"))
  else if !(endswith fn ".cfg") then
    .error (.invalidInput "Coast Guard configuration files must end with the extention \x27.cfg\x27.")
  else if !fileExists then .error .ioError
  else
    .ok { config_dicts := dictSet cfgs.config_dicts (cfgKey fn) bindings,
          configs := dictUpdate cfgs.configs bindings }

/-- Loading a sequence of existing files through read_file with required
    false, stopping at the first error. -/
def loadAll (cfgs : CoastGuardConfigs) :
    List (String × List (String × Int)) → Except CfgError CoastGuardConfigs
  | [] => .ok cfgs
  | (fn, b) :: rest =>
    match read_file cfgs fn b true false with
    | .error e => .error e
    | .ok c => loadAll c rest

/-- The state a successful loadAll run produces: every file dictionary
    recorded under its stripped basename, all bindings merged in order. -/
def applyFiles (cfgs : CoastGuardConfigs)
    (files : List (String × List (String × Int))) : CoastGuardConfigs :=
  { config_dicts := dictUpdate cfgs.config_dicts (files.map (fun f => (cfgKey f.1, f.2))),
    configs := dictUpdate cfgs.configs (joinL (files.map Prod.snd)) }

/-- The four header fields get_configs_for_archive reads from the file. -/
structure HdrParams where
  site : String
  rcvr_name : String
  be_name : String
  name : String
deriving DecidableEq

/-- config.py lines 69-80: the five candidate configuration paths, in order,
    for the given telescope name and header fields. -/
def candidate_config_files (baseDir telescope : String) (hdr : HdrParams)
    (fn : String) : List String :=
  [baseDir ++ "/telescopes/" ++ strLower telescope ++ ".cfg",
   baseDir ++ "/receivers/" ++ strLower hdr.rcvr_name ++ ".cfg",
   baseDir ++ "/backends/" ++ strLower hdr.be_name ++ ".cfg",
   baseDir ++ "/pulsars/" ++ strUpper hdr.name ++ ".cfg",
   baseDir ++ "/observations/" ++ basenameOf fn ++ ".cfg"]

/-- config.py lines 87-89: probe the candidate files in order and load each
    existing one through read_file. -/
def loadExisting (cfgs : CoastGuardConfigs) (fileExists : String → Bool)
    (contents : String → List (String × Int)) :
    List String → Except CfgError CoastGuardConfigs
  | [] => .ok cfgs
  | cf :: rest =>
    if fileExists cf then
      match read_file cfgs cf (contents cf) true false with
      | .error e => .error e
      | .ok c => loadExisting c fileExists contents rest
    else loadExisting cfgs fileExists contents rest

/-- config.py lines 53-89: get_configs_for_archive.  site_to_telescope models
    the utils lookup table (keyed by lowercased site names), fileExists the
    os.path.isfile probe, contents the bindings execfile would capture. -/
def get_configs_for_archive (cfgs : CoastGuardConfigs) (fileExists : String → Bool)
    (contents : String → List (String × Int)) (baseDir : String)
    (site_to_telescope : List (String × String)) (hdr : HdrParams) (fn : String) :
    Except CfgError CoastGuardConfigs :=
  match List.lookup (strLower hdr.site) site_to_telescope with
  | none => .error .keyError
  | some telescope =>
    loadExisting cfgs fileExists contents (candidate_config_files baseDir telescope hdr fn)

deriving instance DecidableEq for Except

/- ===== helper lemmas ===== -/

theorem optOr_none_left (b : Option α) : optOr none b = b := rfl

theorem optOr_some_left (x : α) (b : Option α) : optOr (some x) b = some x := rfl

theorem optOr_none_right (a : Option α) : optOr a none = a := by
  cases a <;> rfl

theorem optOr_assoc (a b c : Option α) : optOr (optOr a b) c = optOr a (optOr b c) := by
  cases a <;> rfl

theorem lookup_append (k : String) (l1 l2 : List (String × α)) :
    List.lookup k (l1 ++ l2) = optOr (List.lookup k l1) (List.lookup k l2) := by
  induction l1 with
  | nil => simp [optOr_none_left]
  | cons p rest ih =>
    obtain ⟨k0, v0⟩ := p
    by_cases h : k = k0
    · simp [List.lookup, h, optOr_some_left]
    · have hb : (k == k0) = false := beq_eq_false_iff_ne.mpr h
      simp [List.lookup, hb, ih]

theorem lookup_dictSet_self (k : String) (v : α) (d : List (String × α)) :
    List.lookup k (dictSet d k v) = some v := by
  induction d with
  | nil => simp [dictSet, List.lookup]
  | cons p rest ih =>
    obtain ⟨k0, v0⟩ := p
    by_cases h : k0 = k
    · simp [dictSet, h, List.lookup]
    · have hb : (k == k0) = false := beq_eq_false_iff_ne.mpr (Ne.symm h)
      have hb0 : (k0 == k) = false := beq_eq_false_iff_ne.mpr h
      simp [dictSet, hb0, List.lookup, hb, ih]

theorem lookup_dictSet_ne (k k0 : String) (v : α) (d : List (String × α))
    (h : k ≠ k0) : List.lookup k (dictSet d k0 v) = List.lookup k d := by
  have hb : (k == k0) = false := beq_eq_false_iff_ne.mpr h
  induction d with
  | nil => simp [dictSet, List.lookup, hb]
  | cons p rest ih =>
    obtain ⟨k1, v1⟩ := p
    by_cases h1 : k1 = k0
    · subst h1
      simp [dictSet, List.lookup, hb]
    · have hb1 : (k1 == k0) = false := beq_eq_false_iff_ne.mpr h1
      by_cases h2 : k = k1
      · simp [dictSet, hb1, List.lookup, h2]
      · have hb2 : (k == k1) = false := beq_eq_false_iff_ne.mpr h2
        simp [dictSet, hb1, List.lookup, hb2, ih]

theorem lookup_dictUpdate (k : String) (d nd : List (String × α)) :
    List.lookup k (dictUpdate d nd) = optOr (List.lookup k nd.reverse) (List.lookup k d) := by
  induction nd generalizing d with
  | nil => simp [dictUpdate, optOr_none_left]
  | cons p tl ih =>
    obtain ⟨k0, v0⟩ := p
    have step : dictUpdate d ((k0, v0) :: tl) = dictUpdate (dictSet d k0 v0) tl := rfl
    rw [step, ih, List.reverse_cons, lookup_append, optOr_assoc]
    by_cases h : k = k0
    · subst h
      rw [lookup_dictSet_self]
      simp [List.lookup, optOr]
    · have hb : (k == k0) = false := beq_eq_false_iff_ne.mpr h
      rw [lookup_dictSet_ne _ _ _ _ h]
      simp [List.lookup, hb, optOr_none_left]

theorem dictUpdate_append (d l1 l2 : List (String × α)) :
    dictUpdate d (l1 ++ l2) = dictUpdate (dictUpdate d l1) l2 := by
  unfold dictUpdate
  exact List.foldl_append _ _ _ _

theorem dictUpdate_cons (d : List (String × α)) (k : String) (v : α)
    (l : List (String × α)) :
    dictUpdate d ((k, v) :: l) = dictUpdate (dictSet d k v) l := rfl

theorem applyFiles_cons (cfgs : CoastGuardConfigs) (fn : String)
    (b : List (String × Int)) (rest : List (String × List (String × Int))) :
    applyFiles cfgs ((fn, b) :: rest)
      = applyFiles { config_dicts := dictSet cfgs.config_dicts (cfgKey fn) b,
                     configs := dictUpdate cfgs.configs b } rest := by
  unfold applyFiles
  simp only [List.map_cons, joinL, CoastGuardConfigs.mk.injEq]
  exact ⟨dictUpdate_cons _ _ _ _, dictUpdate_append _ _ _⟩

theorem read_file_ok (cfgs : CoastGuardConfigs) (fn : String) (b : List (String × Int))
    (hf : endswith fn ".cfg" = true) :
    read_file cfgs fn b true false = .ok
      { config_dicts := dictSet cfgs.config_dicts (cfgKey fn) b,
        configs := dictUpdate cfgs.configs b } := by
  simp [read_file, hf]

theorem loadAll_ok (cfgs : CoastGuardConfigs) (files : List (String × List (String × Int)))
    (h : ∀ f ∈ files, endswith f.1 ".cfg" = true) :
    loadAll cfgs files = .ok (applyFiles cfgs files) := by
  induction files generalizing cfgs with
  | nil => simp [loadAll, applyFiles, dictUpdate, joinL]
  | cons f rest ih =>
    obtain ⟨fn, b⟩ := f
    have hf : endswith fn ".cfg" = true := h (fn, b) (by simp)
    have hrest : ∀ g ∈ rest, endswith g.1 ".cfg" = true := fun g hg => h g (by simp [hg])
    have step : loadAll cfgs ((fn, b) :: rest) =
        (match read_file cfgs fn b true false with
         | .error e => .error e
         | .ok c => loadAll c rest) := rfl
    rw [step, read_file_ok cfgs fn b hf]
    show loadAll { config_dicts := dictSet cfgs.config_dicts (cfgKey fn) b,
                   configs := dictUpdate cfgs.configs b } rest
        = .ok (applyFiles cfgs ((fn, b) :: rest))
    rw [ih _ hrest, applyFiles_cons]

theorem loadExisting_eq_loadAll (cfgs : CoastGuardConfigs) (fileExists : String → Bool)
    (contents : String → List (String × Int)) (paths : List String) :
    loadExisting cfgs fileExists contents paths
      = loadAll cfgs ((paths.filter fileExists).map (fun p => (p, contents p))) := by
  induction paths generalizing cfgs with
  | nil => rfl
  | cons cf rest ih =>
    by_cases h : fileExists cf = true
    · simp only [loadExisting, h, if_true, List.filter_cons_of_pos h, List.map_cons]
      have step : loadAll cfgs ((cf, contents cf) :: (rest.filter fileExists).map (fun p => (p, contents p))) =
          (match read_file cfgs cf (contents cf) true false with
           | .error e => .error e
           | .ok c => loadAll c ((rest.filter fileExists).map (fun p => (p, contents p)))) := rfl
      rw [step]
      cases read_file cfgs cf (contents cf) true false with
      | error e => rfl
      | ok c => exact ih c
    · have hf : fileExists cf = false := by
        cases hv : fileExists cf
        · rfl
        · exact absurd hv h
      have step : loadExisting cfgs fileExists contents (cf :: rest)
          = loadExisting cfgs fileExists contents rest := by
        simp [loadExisting, hf]
      rw [step, List.filter_cons_of_neg h]
      exact ih cfgs

theorem endswith_append_right (a b : String) : endswith (a ++ b) b = true := by
  unfold endswith
  rw [String.data_append, List.isSuffixOf_iff_suffix]
  exact List.suffix_append _ _

theorem endswith_of_endswith {n a b : String} (hab : endswith a b = true)
    (hna : endswith n a = true) : endswith n b = true := by
  unfold endswith at hab hna ⊢
  rw [List.isSuffixOf_iff_suffix] at hab hna ⊢
  exact hab.trans hna

theorem endswith_data_unique {n a b : String} (ha : endswith n a = true)
    (hb : endswith n b = true) (hl : a.data.length = b.data.length) : a.data = b.data := by
  unfold endswith at ha hb
  rw [List.isSuffixOf_iff_suffix] at ha hb
  rcases List.suffix_or_suffix_of_suffix ha hb with h | h
  · exact h.eq_of_length hl
  · exact (h.eq_of_length hl.symm).symm

theorem mem_of_lookup_eq_some {l : List (String × Nat)} {k : String} {v : Nat}
    (h : List.lookup k l = some v) : (k, v) ∈ l := by
  induction l with
  | nil => simp [List.lookup] at h
  | cons p rest ih =>
    obtain ⟨k0, v0⟩ := p
    by_cases hk : k = k0
    · subst hk
      simp [List.lookup] at h
      simp [h]
    · have hb : (k == k0) = false := beq_eq_false_iff_ne.mpr hk
      simp [List.lookup, hb] at h
      exact List.mem_cons_of_mem _ (ih h)

theorem candidate_endswith (baseDir telescope : String) (hdr : HdrParams) (fn p : String)
    (hp : p ∈ candidate_config_files baseDir telescope hdr fn) :
    endswith p ".cfg" = true := by
  simp only [candidate_config_files, List.mem_cons, List.not_mem_nil, or_false] at hp
  rcases hp with h | h | h | h | h <;> subst h <;> exact endswith_append_right _ _

/- ===== claim theorems ===== -/

/-- C4: every file loaded through read_file is recorded under its basename
    with the extension stripped, and the merged configuration is the union of
    the bindings of all loaded files, with later loads overriding earlier
    same-named keys (the lookup in the merged dict is the last binding over
    all loaded files, falling back to the initial state). -/
theorem claim_C4_config_merge (cfgs : CoastGuardConfigs)
    (files : List (String × List (String × Int)))
    (h : ∀ f ∈ files, endswith f.1 ".cfg" = true) :
    loadAll cfgs files = .ok (applyFiles cfgs files)
    ∧ (∀ k, List.lookup k (applyFiles cfgs files).config_dicts
        = optOr (List.lookup k ((files.map (fun f => (cfgKey f.1, f.2))).reverse))
                (List.lookup k cfgs.config_dicts))
    ∧ (∀ k, List.lookup k (applyFiles cfgs files).configs
        = optOr (List.lookup k ((joinL (files.map Prod.snd)).reverse))
                (List.lookup k cfgs.configs)) := by
  refine ⟨loadAll_ok cfgs files h, fun k => ?_, fun k => ?_⟩
  · exact lookup_dictUpdate k _ _
  · exact lookup_dictUpdate k _ _

/-- C4 witness: loading A.cfg with x=1, y=2 then B.cfg with y=3, z=4 merges
    to x=1, y=3, z=4, with both file dictionaries recorded. -/
theorem claim_C4_config_merge_witness :
    loadAll ⟨[], []⟩ [("A.cfg", [("x", 1), ("y", 2)]), ("B.cfg", [("y", 3), ("z", 4)])]
      = .ok (applyFiles ⟨[], []⟩
          [("A.cfg", [("x", 1), ("y", 2)]), ("B.cfg", [("y", 3), ("z", 4)])])
    ∧ List.lookup "x" (applyFiles (⟨[], []⟩ : CoastGuardConfigs)
        [("A.cfg", [("x", 1), ("y", 2)]), ("B.cfg", [("y", 3), ("z", 4)])]).configs = some 1
    ∧ List.lookup "y" (applyFiles (⟨[], []⟩ : CoastGuardConfigs)
        [("A.cfg", [("x", 1), ("y", 2)]), ("B.cfg", [("y", 3), ("z", 4)])]).configs = some 3
    ∧ List.lookup "z" (applyFiles (⟨[], []⟩ : CoastGuardConfigs)
        [("A.cfg", [("x", 1), ("y", 2)]), ("B.cfg", [("y", 3), ("z", 4)])]).configs = some 4
    ∧ List.lookup "A" (applyFiles (⟨[], []⟩ : CoastGuardConfigs)
        [("A.cfg", [("x", 1), ("y", 2)]), ("B.cfg", [("y", 3), ("z", 4)])]).config_dicts
        = some [("x", 1), ("y", 2)] := by
  have h := claim_C4_config_merge ⟨[], []⟩
    [("A.cfg", [("x", 1), ("y", 2)]), ("B.cfg", [("y", 3), ("z", 4)])] (by decide)
  refine ⟨h.1, ?_, ?_, ?_, ?_⟩
  · rw [h.2.2 "x"]; decide
  · rw [h.2.2 "y"]; decide
  · rw [h.2.2 "z"]; decide
  · rw [h.2.1 "A"]; decide

/-- C8: read_file raises the InvalidInput kind of error exactly when the file
    is required but absent or when the path does not end in .cfg; in every
    other case it performs no further validation of the path (it loads the
    file, or surfaces the file-system error of execfile on a missing
    non-required file). -/
theorem claim_C8_read_file_validation (cfgs : CoastGuardConfigs) (fn : String)
    (b : List (String × Int)) (fileExists required : Bool) :
    ((∃ m, read_file cfgs fn b fileExists required = .error (.invalidInput m))
      ↔ ((required = true ∧ fileExists = false) ∨ endswith fn ".cfg" = false))
    ∧ ((required = false ∨ fileExists = true) → endswith fn ".cfg" = true →
        read_file cfgs fn b fileExists required
          = if fileExists then
              .ok { config_dicts := dictSet cfgs.config_dicts (cfgKey fn) b,
                    configs := dictUpdate cfgs.configs b }
            else .error .ioError) := by
  cases required <;> cases fileExists <;> cases hf : endswith fn ".cfg" <;>
    simp [read_file, hf]

/-- C8 witness: a path without the .cfg extension raises InvalidInput even
    for an existing file, and a required missing file raises InvalidInput. -/
theorem claim_C8_read_file_validation_witness :
    (∃ m, read_file ⟨[], []⟩ "notes.txt" [] true false = .error (.invalidInput m))
    ∧ (∃ m, read_file ⟨[], []⟩ "default.cfg" [] false true = .error (.invalidInput m))
    ∧ read_file ⟨[], []⟩ "default.cfg" [("x", 7)] true false
        = .ok { config_dicts := dictSet [] (cfgKey "default.cfg") [("x", 7)],
                configs := dictUpdate [] [("x", 7)] } := by
  refine ⟨?_, ?_, ?_⟩
  · exact (claim_C8_read_file_validation ⟨[], []⟩ "notes.txt" [] true false).1.mpr
      (Or.inr (by decide))
  · exact (claim_C8_read_file_validation ⟨[], []⟩ "default.cfg" [] false true).1.mpr
      (Or.inl (by decide))
  · have h := (claim_C8_read_file_validation ⟨[], []⟩ "default.cfg" [("x", 7)] true false).2
      (Or.inr rfl) (by decide)
    rw [h]
    rfl

/-- C5: get_configs_for_archive builds exactly the five candidate paths, in
    the fixed order telescope, receiver, backend, pulsar, observation (with
    the documented case foldings), and loads through read_file with required
    false exactly the existing ones, in order, without error. -/
theorem claim_C5_get_configs (cfgs : CoastGuardConfigs) (fileExists : String → Bool)
    (contents : String → List (String × Int)) (baseDir : String)
    (site_to_telescope : List (String × String)) (hdr : HdrParams) (fn : String)
    (telescope : String)
    (hlu : List.lookup (strLower hdr.site) site_to_telescope = some telescope) :
    candidate_config_files baseDir telescope hdr fn
      = [baseDir ++ "/telescopes/" ++ strLower telescope ++ ".cfg",
         baseDir ++ "/receivers/" ++ strLower hdr.rcvr_name ++ ".cfg",
         baseDir ++ "/backends/" ++ strLower hdr.be_name ++ ".cfg",
         baseDir ++ "/pulsars/" ++ strUpper hdr.name ++ ".cfg",
         baseDir ++ "/observations/" ++ basenameOf fn ++ ".cfg"]
    ∧ get_configs_for_archive cfgs fileExists contents baseDir site_to_telescope hdr fn
        = loadAll cfgs (((candidate_config_files baseDir telescope hdr fn).filter
            fileExists).map (fun p => (p, contents p)))
    ∧ get_configs_for_archive cfgs fileExists contents baseDir site_to_telescope hdr fn
        = .ok (applyFiles cfgs (((candidate_config_files baseDir telescope hdr fn).filter
            fileExists).map (fun p => (p, contents p)))) := by
  have heq : get_configs_for_archive cfgs fileExists contents baseDir site_to_telescope hdr fn
      = loadExisting cfgs fileExists contents (candidate_config_files baseDir telescope hdr fn) := by
    unfold get_configs_for_archive
    rw [hlu]
  refine ⟨rfl, ?_, ?_⟩
  · rw [heq, loadExisting_eq_loadAll]
  · rw [heq, loadExisting_eq_loadAll]
    refine loadAll_ok _ _ (fun f hf => ?_)
    obtain ⟨p, hp, rfl⟩ := List.mem_map.mp hf
    exact candidate_endswith baseDir telescope hdr fn p (List.mem_of_mem_filter hp)

theorem correct_header_ok (hdr : ArchiveHdr) (stddevs : List ℚ) (chnwts : List Bool)
    (obsinfoGiven : Bool) (coordResult : Except String (String × String))
    (fluxcals : List String) (backend rcvr : String)
    (hr : determineRcvr hdr.band stddevs chnwts = .ok rcvr) :
    correct_header hdr stddevs chnwts obsinfoGiven coordResult fluxcals backend
      = .ok (assembleCorrections rcvr hdr obsinfoGiven coordResult fluxcals backend) := by
  unfold correct_header
  rw [hr]

theorem endswith_R_of_endswith_SR {name : String}
    (h : endswith name "_S_R" = true ∨ endswith name "_N_R" = true) :
    endswith name "_R" = true := by
  rcases h with h | h
  · exact endswith_of_endswith (by decide) h
  · exact endswith_of_endswith (by decide) h

theorem classifyType_fluxcal_off (name : String) (fluxcals : List String)
    (h : endswith name "_S_R" = true ∨ endswith name "_N_R" = true)
    (hany : fluxcals.any (fun f => startswith name f) = true) :
    classifyType name fluxcals = ",type=FluxCal-Off" := by
  have hR : endswith name "_R" = true := endswith_R_of_endswith_SR h
  rcases h with h | h <;> simp [classifyType, hR, hany, h]

theorem classifyType_fluxcal_on (name : String) (fluxcals : List String)
    (h : endswith name "_O_R" = true)
    (hany : fluxcals.any (fun f => startswith name f) = true) :
    classifyType name fluxcals = ",type=FluxCal-On" := by
  have hR : endswith name "_R" = true := endswith_of_endswith (by decide) h
  have hS : endswith name "_S_R" = false := by
    cases hv : endswith name "_S_R"
    · rfl
    · exact absurd (endswith_data_unique hv h (by decide)) (by decide)
  have hN : endswith name "_N_R" = false := by
    cases hv : endswith name "_N_R"
    · rfl
    · exact absurd (endswith_data_unique hv h (by decide)) (by decide)
  simp [classifyType, hR, hany, hS, hN, h]

theorem classifyType_polncal (name : String) (fluxcals : List String)
    (hR : endswith name "_R" = true)
    (hany : fluxcals.any (fun f => startswith name f) = false) :
    classifyType name fluxcals = ",type=PolnCal" := by
  simp [classifyType, hR, hany]

theorem classifyType_pulsar (name : String) (fluxcals : List String)
    (hR : endswith name "_R" = false) :
    classifyType name fluxcals = ",type=Pulsar" := by
  simp [classifyType, hR]

theorem classifyType_empty (name : String) (fluxcals : List String)
    (hR : endswith name "_R" = true)
    (hany : fluxcals.any (fun f => startswith name f) = true)
    (hS : endswith name "_S_R" = false) (hN : endswith name "_N_R" = false)
    (hO : endswith name "_O_R" = false) :
    classifyType name fluxcals = "" := by
  simp [classifyType, hR, hany, hS, hN, hO]

/-- C2: for an L-band file, with bot the mean of the per-channel standard
    deviations over the weight-true channels of the first eighth of channels
    and top the same mean over the remaining channels, correct_header selects
    P200-3 when top/bot exceeds 5, P217-3 when top/bot is below 2, and raises
    the HeaderCorrection error otherwise.  The hypothesis that bot is nonzero
    excludes the degenerate empty-selection case, where the Python ratio is
    not a number. -/
theorem claim_C2_lband_receiver (hdr : ArchiveHdr) (stddevs : List ℚ) (chnwts : List Bool)
    (obsinfoGiven : Bool) (coordResult : Except String (String × String))
    (fluxcals : List String) (backend : String)
    (hband : hdr.band = "Lband")
    (hbot : lbandBot stddevs chnwts ≠ 0) :
    (lbandTop stddevs chnwts / lbandBot stddevs chnwts > 5 →
      correct_header hdr stddevs chnwts obsinfoGiven coordResult fluxcals backend
        = .ok (assembleCorrections "P200-3" hdr obsinfoGiven coordResult fluxcals backend))
    ∧ (lbandTop stddevs chnwts / lbandBot stddevs chnwts < 2 →
      correct_header hdr stddevs chnwts obsinfoGiven coordResult fluxcals backend
        = .ok (assembleCorrections "P217-3" hdr obsinfoGiven coordResult fluxcals backend))
    ∧ (2 ≤ lbandTop stddevs chnwts / lbandBot stddevs chnwts →
       lbandTop stddevs chnwts / lbandBot stddevs chnwts ≤ 5 →
      correct_header hdr stddevs chnwts obsinfoGiven coordResult fluxcals backend
        = .error "Cannot determine receiver.") := by
  refine ⟨fun h5 => ?_, fun h2 => ?_, fun hge hle => ?_⟩
  · simp [correct_header, determineRcvr, hband, h5]
  · have hn5 : ¬ lbandTop stddevs chnwts / lbandBot stddevs chnwts > 5 := by linarith
    simp [correct_header, determineRcvr, hband, hn5, h2]
  · have hn5 : ¬ lbandTop stddevs chnwts / lbandBot stddevs chnwts > 5 := by linarith
    have hn2 : ¬ lbandTop stddevs chnwts / lbandBot stddevs chnwts < 2 := by linarith
    simp [correct_header, determineRcvr, hband, hn5, hn2]

/-- C2 witness: concrete channel data with ratio 6 selects P200-3, ratio 3/2
    selects P217-3, ratio 3 raises the error. -/
theorem claim_C2_lband_receiver_witness :
    correct_header ⟨"Lband", "P217-3", "J1234+56", "12:34:56"⟩
        [1, 6, 6, 6, 6, 6, 6, 6] [true, true, true, true, true, true, true, true]
        false (.ok ("r", "d")) [] "asterix"
      = .ok (assembleCorrections "P200-3" ⟨"Lband", "P217-3", "J1234+56", "12:34:56"⟩
          false (.ok ("r", "d")) [] "asterix")
    ∧ correct_header ⟨"Lband", "P217-3", "J1234+56", "12:34:56"⟩
        [2, 3, 3, 3, 3, 3, 3, 3] [true, true, true, true, true, true, true, true]
        false (.ok ("r", "d")) [] "asterix"
      = .ok (assembleCorrections "P217-3" ⟨"Lband", "P217-3", "J1234+56", "12:34:56"⟩
          false (.ok ("r", "d")) [] "asterix")
    ∧ correct_header ⟨"Lband", "P217-3", "J1234+56", "12:34:56"⟩
        [1, 3, 3, 3, 3, 3, 3, 3] [true, true, true, true, true, true, true, true]
        false (.ok ("r", "d")) [] "asterix"
      = .error "Cannot determine receiver." := by
  refine ⟨?_, ?_, ?_⟩
  · exact (claim_C2_lband_receiver _ _ _ false (.ok ("r", "d")) [] "asterix" rfl
      (by norm_num [lbandBot, meanQ, maskSelect])).1
      (by norm_num [lbandTop, lbandBot, meanQ, maskSelect])
  · exact (claim_C2_lband_receiver _ _ _ false (.ok ("r", "d")) [] "asterix" rfl
      (by norm_num [lbandBot, meanQ, maskSelect])).2.1
      (by norm_num [lbandTop, lbandBot, meanQ, maskSelect])
  · exact (claim_C2_lband_receiver _ _ _ false (.ok ("r", "d")) [] "asterix" rfl
      (by norm_num [lbandBot, meanQ, maskSelect])).2.2
      (by norm_num [lbandTop, lbandBot, meanQ, maskSelect])
      (by norm_num [lbandTop, lbandBot, meanQ, maskSelect])

/-- C6: correct_header attempts coordinate correction exactly when explicit
    observing-log information was supplied, or the source name ends in _R,
    or the recorded right ascension starts with 00:00:00; otherwise it
    appends the note No reason to correct coords and no coordinate fragment;
    and a HeaderCorrection error from coordinate computation is downgraded
    to a note (the message plus the Could-not-correct line), no coordinate
    fragment is appended, and the correction still returns ok. -/
theorem claim_C6_coord_policy (hdr : ArchiveHdr) (stddevs : List ℚ) (chnwts : List Bool)
    (obsinfoGiven : Bool) (coordResult : Except String (String × String))
    (fluxcals : List String) (backend rcvr msg rastr decstr : String)
    (hr : determineRcvr hdr.band stddevs chnwts = .ok rcvr) :
    (obsinfoGiven = false → endswith hdr.name "_R" = false →
       startswith hdr.ra "00:00:00" = false →
      correct_header hdr stddevs chnwts obsinfoGiven coordResult fluxcals backend
        = .ok (RCVR_INFO rcvr ++ ",be:name=" ++ backend ++ classifyType hdr.name fluxcals,
            rcvrWrongNote hdr.rcvr rcvr ++ "No reason to correct coords."))
    ∧ ((obsinfoGiven = true ∨ endswith hdr.name "_R" = true ∨
        startswith hdr.ra "00:00:00" = true) →
       coordResult = .error msg →
      correct_header hdr stddevs chnwts obsinfoGiven coordResult fluxcals backend
        = .ok (RCVR_INFO rcvr ++ ",be:name=" ++ backend ++ classifyType hdr.name fluxcals,
            rcvrWrongNote hdr.rcvr rcvr ++ (msg ++ "\n(Could not correct coordinates)")))
    ∧ ((obsinfoGiven = true ∨ endswith hdr.name "_R" = true ∨
        startswith hdr.ra "00:00:00" = true) →
       coordResult = .ok (rastr, decstr) →
      correct_header hdr stddevs chnwts obsinfoGiven coordResult fluxcals backend
        = .ok (RCVR_INFO rcvr ++ ",be:name=" ++ backend
            ++ (",coord=" ++ rastr ++ decstr) ++ classifyType hdr.name fluxcals,
            rcvrWrongNote hdr.rcvr rcvr)) := by
  refine ⟨fun hg hname hra => ?_, fun hca hc => ?_, fun hca hc => ?_⟩
  · rw [correct_header_ok _ _ _ _ _ _ _ _ hr]
    unfold assembleCorrections
    rw [show coordParts obsinfoGiven hdr coordResult = ("", "No reason to correct coords.")
        from by simp [coordParts, coordAttempted, hg, hname, hra]]
    rw [String.append_empty]
  · have hcat : coordAttempted obsinfoGiven hdr = true := by
      rcases hca with h | h | h <;> simp [coordAttempted, h]
    rw [correct_header_ok _ _ _ _ _ _ _ _ hr]
    unfold assembleCorrections
    rw [show coordParts obsinfoGiven hdr coordResult
          = ("", msg ++ "\n(Could not correct coordinates)")
        from by simp [coordParts, hcat, hc]]
    rw [String.append_empty]
  · have hcat : coordAttempted obsinfoGiven hdr = true := by
      rcases hca with h | h | h <;> simp [coordAttempted, h]
    rw [correct_header_ok _ _ _ _ _ _ _ _ hr]
    unfold assembleCorrections
    rw [show coordParts obsinfoGiven hdr coordResult = (",coord=" ++ rastr ++ decstr, "")
        from by simp [coordParts, hcat, hc]]
    rw [String.append_empty]

/-- C6 witness: a Pulsar scan with no reason to correct coordinates gets only
    the note, and a calibration scan whose coordinate computation fails gets
    the downgraded note while the correction still succeeds. -/
theorem claim_C6_coord_policy_witness :
    correct_header ⟨"Cband", "S60-2", "J1234+56", "11:22:33"⟩ [] [] false
        (.error "No obslog entry") [] "asterix"
      = .ok ("rcvr:name=S60-2,rcvr:hand=-1,rcvr:basis=cir,be:name=asterix,type=Pulsar",
          "No reason to correct coords.")
    ∧ correct_header ⟨"Cband", "S60-2", "J1234+56_R", "11:22:33"⟩ [] [] false
        (.error "No obslog entry") [] "asterix"
      = .ok ("rcvr:name=S60-2,rcvr:hand=-1,rcvr:basis=cir,be:name=asterix,type=PolnCal",
          "No obslog entry\n(Could not correct coordinates)")
    ∧ correct_header ⟨"Cband", "S60-2", "J1234+56_R", "11:22:33"⟩ [] [] false
        (.ok ("12:34:56.789", "+12:34:56.78")) [] "asterix"
      = .ok ("rcvr:name=S60-2,rcvr:hand=-1,rcvr:basis=cir,be:name=asterix,coord=12:34:56.789+12:34:56.78,type=PolnCal",
          "") := by
  refine ⟨?_, ?_, ?_⟩
  · have h := (claim_C6_coord_policy ⟨"Cband", "S60-2", "J1234+56", "11:22:33"⟩ [] [] false
      (.error "No obslog entry") [] "asterix" "S60-2" "No obslog entry" "" "" rfl).1
      rfl (by decide) (by decide)
    rw [h]; decide
  · have h := (claim_C6_coord_policy ⟨"Cband", "S60-2", "J1234+56_R", "11:22:33"⟩ [] [] false
      (.error "No obslog entry") [] "asterix" "S60-2" "No obslog entry" "" "" rfl).2.1
      (Or.inr (Or.inl (by decide))) rfl
    rw [h]; decide
  · have h := (claim_C6_coord_policy ⟨"Cband", "S60-2", "J1234+56_R", "11:22:33"⟩ [] [] false
      (.ok ("12:34:56.789", "+12:34:56.78")) [] "asterix" "S60-2" ""
      "12:34:56.789" "+12:34:56.78" rfl).2.2
      (Or.inr (Or.inl (by decide))) rfl
    rw [h]; decide

/-- C7: correct_header classifies the observation from its source name: a
    flux-calibrator-matching name ending in _S_R or _N_R appends
    type=FluxCal-Off, a matching name ending in _O_R appends type=FluxCal-On,
    an _R name matching no flux-calibrator gets type=PolnCal, and a
    name not ending in _R gets type=Pulsar. -/
theorem claim_C7_type_classification (hdr : ArchiveHdr) (stddevs : List ℚ)
    (chnwts : List Bool) (obsinfoGiven : Bool)
    (coordResult : Except String (String × String)) (fluxcals : List String)
    (backend rcvr : String)
    (hr : determineRcvr hdr.band stddevs chnwts = .ok rcvr) :
    ((endswith hdr.name "_S_R" = true ∨ endswith hdr.name "_N_R" = true) →
      fluxcals.any (fun f => startswith hdr.name f) = true →
      correct_header hdr stddevs chnwts obsinfoGiven coordResult fluxcals backend
        = .ok (RCVR_INFO rcvr ++ ",be:name=" ++ backend
            ++ (coordParts obsinfoGiven hdr coordResult).1 ++ ",type=FluxCal-Off",
            rcvrWrongNote hdr.rcvr rcvr ++ (coordParts obsinfoGiven hdr coordResult).2))
    ∧ (endswith hdr.name "_O_R" = true →
      fluxcals.any (fun f => startswith hdr.name f) = true →
      correct_header hdr stddevs chnwts obsinfoGiven coordResult fluxcals backend
        = .ok (RCVR_INFO rcvr ++ ",be:name=" ++ backend
            ++ (coordParts obsinfoGiven hdr coordResult).1 ++ ",type=FluxCal-On",
            rcvrWrongNote hdr.rcvr rcvr ++ (coordParts obsinfoGiven hdr coordResult).2))
    ∧ (endswith hdr.name "_R" = true →
      fluxcals.any (fun f => startswith hdr.name f) = false →
      correct_header hdr stddevs chnwts obsinfoGiven coordResult fluxcals backend
        = .ok (RCVR_INFO rcvr ++ ",be:name=" ++ backend
            ++ (coordParts obsinfoGiven hdr coordResult).1 ++ ",type=PolnCal",
            rcvrWrongNote hdr.rcvr rcvr ++ (coordParts obsinfoGiven hdr coordResult).2))
    ∧ (endswith hdr.name "_R" = false →
      correct_header hdr stddevs chnwts obsinfoGiven coordResult fluxcals backend
        = .ok (RCVR_INFO rcvr ++ ",be:name=" ++ backend
            ++ (coordParts obsinfoGiven hdr coordResult).1 ++ ",type=Pulsar",
            rcvrWrongNote hdr.rcvr rcvr ++ (coordParts obsinfoGiven hdr coordResult).2)) := by
  refine ⟨fun h hany => ?_, fun h hany => ?_, fun hR hany => ?_, fun hR => ?_⟩ <;>
    rw [correct_header_ok _ _ _ _ _ _ _ _ hr] <;> unfold assembleCorrections
  · rw [classifyType_fluxcal_off hdr.name fluxcals h hany]
  · rw [classifyType_fluxcal_on hdr.name fluxcals h hany]
  · rw [classifyType_polncal hdr.name fluxcals hR hany]
  · rw [classifyType_pulsar hdr.name fluxcals hR]

/-- C7 witness: the four classifications at concrete source names, with the
    flux-calibrator list containing the B1934 name. -/
theorem claim_C7_type_classification_witness :
    correct_header ⟨"Cband", "S60-2", "B1934+16_S_R", "11:22:33"⟩ [] [] false
        (.ok ("r", "d")) ["B1934"] "asterix"
      = .ok ("rcvr:name=S60-2,rcvr:hand=-1,rcvr:basis=cir,be:name=asterix,coord=rd,type=FluxCal-Off", "")
    ∧ correct_header ⟨"Cband", "S60-2", "B1934+16_O_R", "11:22:33"⟩ [] [] false
        (.ok ("r", "d")) ["B1934"] "asterix"
      = .ok ("rcvr:name=S60-2,rcvr:hand=-1,rcvr:basis=cir,be:name=asterix,coord=rd,type=FluxCal-On", "")
    ∧ correct_header ⟨"Cband", "S60-2", "J1234+56_R", "11:22:33"⟩ [] [] false
        (.ok ("r", "d")) ["B1934"] "asterix"
      = .ok ("rcvr:name=S60-2,rcvr:hand=-1,rcvr:basis=cir,be:name=asterix,coord=rd,type=PolnCal", "")
    ∧ correct_header ⟨"Cband", "S60-2", "J1234+56", "11:22:33"⟩ [] [] false
        (.ok ("r", "d")) ["B1934"] "asterix"
      = .ok ("rcvr:name=S60-2,rcvr:hand=-1,rcvr:basis=cir,be:name=asterix,type=Pulsar",
          "No reason to correct coords.") := by
  refine ⟨?_, ?_, ?_, ?_⟩
  · have h := (claim_C7_type_classification ⟨"Cband", "S60-2", "B1934+16_S_R", "11:22:33"⟩
      [] [] false (.ok ("r", "d")) ["B1934"] "asterix" "S60-2" rfl).1
      (Or.inl (by decide)) (by decide)
    rw [h]; decide
  · have h := (claim_C7_type_classification ⟨"Cband", "S60-2", "B1934+16_O_R", "11:22:33"⟩
      [] [] false (.ok ("r", "d")) ["B1934"] "asterix" "S60-2" rfl).2.1
      (by decide) (by decide)
    rw [h]; decide
  · have h := (claim_C7_type_classification ⟨"Cband", "S60-2", "J1234+56_R", "11:22:33"⟩
      [] [] false (.ok ("r", "d")) ["B1934"] "asterix" "S60-2" rfl).2.2.1
      (by decide) (by decide)
    rw [h]; decide
  · have h := (claim_C7_type_classification ⟨"Cband", "S60-2", "J1234+56", "11:22:33"⟩
      [] [] false (.ok ("r", "d")) ["B1934"] "asterix" "S60-2" rfl).2.2.2
      (by decide)
    rw [h]; decide

/-- C10: a source name ending in _R that matches a flux-calibrator name but
    ends in none of _S_R, _N_R, _O_R gets no type fragment at all: the
    classification fragment is empty and the correction string ends with the
    coordinate part. -/
theorem claim_C10_no_type_fragment (hdr : ArchiveHdr) (stddevs : List ℚ)
    (chnwts : List Bool) (obsinfoGiven : Bool)
    (coordResult : Except String (String × String)) (fluxcals : List String)
    (backend rcvr : String)
    (hr : determineRcvr hdr.band stddevs chnwts = .ok rcvr)
    (hR : endswith hdr.name "_R" = true)
    (hany : fluxcals.any (fun f => startswith hdr.name f) = true)
    (hS : endswith hdr.name "_S_R" = false) (hN : endswith hdr.name "_N_R" = false)
    (hO : endswith hdr.name "_O_R" = false) :
    classifyType hdr.name fluxcals = ""
    ∧ correct_header hdr stddevs chnwts obsinfoGiven coordResult fluxcals backend
        = .ok (RCVR_INFO rcvr ++ ",be:name=" ++ backend
            ++ (coordParts obsinfoGiven hdr coordResult).1,
            rcvrWrongNote hdr.rcvr rcvr ++ (coordParts obsinfoGiven hdr coordResult).2) := by
  have hc : classifyType hdr.name fluxcals = "" :=
    classifyType_empty hdr.name fluxcals hR hany hS hN hO
  refine ⟨hc, ?_⟩
  rw [correct_header_ok _ _ _ _ _ _ _ _ hr]
  unfold assembleCorrections
  rw [hc, String.append_empty]

/-- C10 witness: the name B1934+16_X_R matches the flux calibrator, ends in
    _R but in none of the three special suffixes, and the resulting
    correction string carries no type fragment. -/
theorem claim_C10_no_type_fragment_witness :
    classifyType "B1934+16_X_R" ["B1934"] = ""
    ∧ correct_header ⟨"Cband", "S60-2", "B1934+16_X_R", "11:22:33"⟩ [] [] false
        (.ok ("r", "d")) ["B1934"] "asterix"
      = .ok ("rcvr:name=S60-2,rcvr:hand=-1,rcvr:basis=cir,be:name=asterix,coord=rd", "") := by
  have h := claim_C10_no_type_fragment ⟨"Cband", "S60-2", "B1934+16_X_R", "11:22:33"⟩
    [] [] false (.ok ("r", "d")) ["B1934"] "asterix" "S60-2" rfl
    (by decide) (by decide) (by decide) (by decide) (by decide)
  refine ⟨h.1, ?_⟩
  rw [h.2]; decide

/-- C5 witness: with site Effelsberg, receiver P217-3, backend asterix,
    pulsar J1939+2134 and file obs001.ar, the five candidate paths are
    probed in order, and only the existing receiver file is loaded. -/
theorem claim_C5_get_configs_witness :
    candidate_config_files "base" "Effelsberg"
        ⟨"Effelsberg", "P217-3", "asterix", "J1939+2134"⟩ "obs001.ar"
      = ["base/telescopes/effelsberg.cfg", "base/receivers/p217-3.cfg",
         "base/backends/asterix.cfg", "base/pulsars/J1939+2134.cfg",
         "base/observations/obs001.ar.cfg"]
    ∧ get_configs_for_archive ⟨[], []⟩ (fun p => p == "base/receivers/p217-3.cfg")
        (fun _ => [("rcvr", 1)]) "base" [("effelsberg", "Effelsberg")]
        ⟨"Effelsberg", "P217-3", "asterix", "J1939+2134"⟩ "obs001.ar"
      = .ok (applyFiles ⟨[], []⟩ [("base/receivers/p217-3.cfg", [("rcvr", 1)])]) := by
  have h := claim_C5_get_configs ⟨[], []⟩ (fun p => p == "base/receivers/p217-3.cfg")
    (fun _ => [("rcvr", 1)]) "base" [("effelsberg", "Effelsberg")]
    ⟨"Effelsberg", "P217-3", "asterix", "J1939+2134"⟩ "obs001.ar" "Effelsberg" (by decide)
  refine ⟨?_, ?_⟩
  · rw [h.1]; decide
  · rw [h.2.2]; decide

/-- C3: row lookup strips a trailing _L or _U from the key and folds the
    retrieved value to lower or upper case accordingly; the stripped key is
    looked up exactly first; otherwise a unique column having the key as a
    leading part is returned (folded), several such columns give the
    BadColumnName error listing the matches, and none gives the BadColumnName
    error listing all column names sorted. -/
theorem claim_C3_row_lookup (row : List (String × String)) (key kk : String)
    (f : String → String) (v : String) (m : String × String) :
    (endswith key "_L" = true →
      fancy_getitem row key = lookup_with_filter row strLower (key.dropRight 2))
    ∧ (endswith key "_L" = false → endswith key "_U" = true →
      fancy_getitem row key = lookup_with_filter row strUpper (key.dropRight 2))
    ∧ (endswith key "_L" = false → endswith key "_U" = false →
      fancy_getitem row key = lookup_with_filter row id key)
    ∧ (List.lookup kk row = some v → lookup_with_filter row f kk = .ok (f v))
    ∧ (List.lookup kk row = none → row.filter (fun p => startswith p.1 kk) = [m] →
      lookup_with_filter row f kk = .ok (f m.2))
    ∧ (List.lookup kk row = none →
       2 ≤ (row.filter (fun p => startswith p.1 kk)).length →
      lookup_with_filter row f kk
        = .ambiguous kk ((row.filter (fun p => startswith p.1 kk)).map Prod.fst))
    ∧ (List.lookup kk row = none → row.filter (fun p => startswith p.1 kk) = [] →
      lookup_with_filter row f kk = .unknown kk (sortStrings (row.map Prod.fst))) := by
  refine ⟨fun hL => ?_, fun hL hU => ?_, fun hL hU => ?_, fun hexact => ?_,
    fun hnone hone => ?_, fun hnone htwo => ?_, fun hnone hzero => ?_⟩
  · simp [fancy_getitem, hL]
  · simp [fancy_getitem, hL, hU]
  · simp [fancy_getitem, hL, hU]
  · simp [lookup_with_filter, hexact]
  · unfold lookup_with_filter
    rw [hnone, hone]
  · unfold lookup_with_filter
    rw [hnone]
    cases hf : row.filter (fun p => startswith p.1 kk) with
    | nil => rw [hf] at htwo; simp at htwo
    | cons a t =>
      cases t with
      | nil => rw [hf] at htwo; simp at htwo
      | cons b t2 => rfl
  · unfold lookup_with_filter
    rw [hnone, hzero]

/-- C3 witness: with columns freq_mhz and freq_ghz, the key freq is
    ambiguous, freq_mhz is returned exactly, nope lists both valid names
    sorted, and freq_mhz_U returns the value upper-cased. -/
theorem claim_C3_row_lookup_witness :
    fancy_getitem [("freq_mhz", "1400mhz"), ("freq_ghz", "1.4ghz")] "freq"
      = .ambiguous "freq" ["freq_mhz", "freq_ghz"]
    ∧ fancy_getitem [("freq_mhz", "1400mhz"), ("freq_ghz", "1.4ghz")] "freq_mhz"
      = .ok "1400mhz"
    ∧ fancy_getitem [("freq_mhz", "1400mhz"), ("freq_ghz", "1.4ghz")] "nope"
      = .unknown "nope" ["freq_ghz", "freq_mhz"]
    ∧ fancy_getitem [("freq_mhz", "1400mhz"), ("freq_ghz", "1.4ghz")] "freq_mhz_U"
      = .ok "1400MHZ" := by
  refine ⟨?_, ?_, ?_, ?_⟩
  · have h1 := (claim_C3_row_lookup [("freq_mhz", "1400mhz"), ("freq_ghz", "1.4ghz")]
      "freq" "freq" id "" ("", "")).2.2.1 (by decide) (by decide)
    have h2 := (claim_C3_row_lookup [("freq_mhz", "1400mhz"), ("freq_ghz", "1.4ghz")]
      "freq" "freq" id "" ("", "")).2.2.2.2.2.1 (by decide) (by decide)
    rw [h1, h2]; decide
  · have h1 := (claim_C3_row_lookup [("freq_mhz", "1400mhz"), ("freq_ghz", "1.4ghz")]
      "freq_mhz" "freq_mhz" id "1400mhz" ("", "")).2.2.1 (by decide) (by decide)
    have h2 := (claim_C3_row_lookup [("freq_mhz", "1400mhz"), ("freq_ghz", "1.4ghz")]
      "freq_mhz" "freq_mhz" id "1400mhz" ("", "")).2.2.2.1 (by decide)
    rw [h1, h2]; rfl
  · have h1 := (claim_C3_row_lookup [("freq_mhz", "1400mhz"), ("freq_ghz", "1.4ghz")]
      "nope" "nope" id "" ("", "")).2.2.1 (by decide) (by decide)
    have h2 := (claim_C3_row_lookup [("freq_mhz", "1400mhz"), ("freq_ghz", "1.4ghz")]
      "nope" "nope" id "" ("", "")).2.2.2.2.2.2 (by decide) (by decide)
    rw [h1, h2]; decide
  · have h1 := (claim_C3_row_lookup [("freq_mhz", "1400mhz"), ("freq_ghz", "1.4ghz")]
      "freq_mhz_U" "freq_mhz" strUpper "1400mhz" ("", "")).2.1 (by decide) (by decide)
    have h2 := (claim_C3_row_lookup [("freq_mhz", "1400mhz"), ("freq_ghz", "1.4ghz")]
      "freq_mhz_U" "freq_mhz" strUpper "1400mhz" ("", "")).2.2.2.1 (by decide)
    rw [h1]
    have hk : ("freq_mhz_U".dropRight 2) = "freq_mhz" := by decide
    rw [hk, h2]; decide

theorem get_engine_eq (st : EngineState) (url : Option String) (dburl : String) :
    get_engine st url dburl
      = match List.lookup (url.getD dburl) st.engines with
        | some e => (e, st)
        | none => (st.nextId, ⟨st.engines ++ [(url.getD dburl, st.nextId)], st.nextId + 1⟩) := rfl

/-- C9: get_engine is idempotent per connection URL: a second call with the
    same URL (or with the URL omitted, resolving to the configured default)
    returns the same cached handle and leaves the cache unchanged; calls with
    two URLs resolving differently return distinct handles; and a cached
    entry is never removed or replaced by later calls. -/
theorem claim_C9_engine_cache (st : EngineState) (url url₁ url₂ : Option String)
    (dburl : String) (hwf : wfEngineState st) :
    (get_engine (get_engine st url dburl).2 url dburl = get_engine st url dburl)
    ∧ (url₁.getD dburl ≠ url₂.getD dburl →
        (get_engine (get_engine st url₁ dburl).2 url₂ dburl).1
          ≠ (get_engine st url₁ dburl).1)
    ∧ (∀ u e, List.lookup u st.engines = some e →
        List.lookup u ((get_engine st url dburl).2.engines) = some e) := by
  obtain ⟨hbound, hnodup⟩ := hwf
  refine ⟨?_, ?_, ?_⟩
  · cases hlo : List.lookup (url.getD dburl) st.engines with
    | some e =>
      rw [get_engine_eq st url dburl, hlo]
      show get_engine st url dburl = (e, st)
      rw [get_engine_eq st url dburl, hlo]
    | none =>
      rw [get_engine_eq st url dburl, hlo]
      show get_engine ⟨st.engines ++ [(url.getD dburl, st.nextId)], st.nextId + 1⟩ url dburl
        = (st.nextId, ⟨st.engines ++ [(url.getD dburl, st.nextId)], st.nextId + 1⟩)
      rw [get_engine_eq]
      have hlo2 : List.lookup (url.getD dburl)
          (st.engines ++ [(url.getD dburl, st.nextId)]) = some st.nextId := by
        rw [lookup_append, hlo, optOr_none_left]
        simp [List.lookup]
      rw [hlo2]
  · intro hne
    cases h1 : List.lookup (url₁.getD dburl) st.engines with
    | some e1 =>
      rw [get_engine_eq st url₁ dburl, h1]
      show (get_engine st url₂ dburl).1 ≠ e1
      rw [get_engine_eq st url₂ dburl]
      cases h2 : List.lookup (url₂.getD dburl) st.engines with
      | some e2 =>
        show e2 ≠ e1
        intro hcontra
        have hmem1 := mem_of_lookup_eq_some h1
        have hmem2 := mem_of_lookup_eq_some h2
        have hpair := List.inj_on_of_nodup_map hnodup hmem2 hmem1 (by simp [hcontra])
        exact hne (congrArg Prod.fst hpair).symm
      | none =>
        show st.nextId ≠ e1
        have he1 : e1 < st.nextId := hbound _ (mem_of_lookup_eq_some h1)
        exact fun hc => absurd (hc ▸ he1) (lt_irrefl _)
    | none =>
      rw [get_engine_eq st url₁ dburl, h1]
      show (get_engine ⟨st.engines ++ [(url₁.getD dburl, st.nextId)], st.nextId + 1⟩
          url₂ dburl).1 ≠ st.nextId
      rw [get_engine_eq]
      have hcomb : List.lookup (url₂.getD dburl)
          (st.engines ++ [(url₁.getD dburl, st.nextId)])
          = List.lookup (url₂.getD dburl) st.engines := by
        rw [lookup_append]
        rw [show List.lookup (url₂.getD dburl) [(url₁.getD dburl, st.nextId)] = none from by
          simp [List.lookup, beq_eq_false_iff_ne.mpr (Ne.symm hne)]]
        exact optOr_none_right _
      rw [show (⟨st.engines ++ [(url₁.getD dburl, st.nextId)], st.nextId + 1⟩
          : EngineState).engines = st.engines ++ [(url₁.getD dburl, st.nextId)] from rfl]
      rw [hcomb]
      cases h2 : List.lookup (url₂.getD dburl) st.engines with
      | some e2 =>
        show e2 ≠ st.nextId
        have he2 : e2 < st.nextId := hbound _ (mem_of_lookup_eq_some h2)
        exact fun hc => absurd (hc ▸ he2) (lt_irrefl _)
      | none =>
        show st.nextId + 1 ≠ st.nextId
        exact Nat.succ_ne_self _
  · intro u e hl
    cases hlo : List.lookup (url.getD dburl) st.engines with
    | some e0 =>
      rw [get_engine_eq st url dburl, hlo]
      exact hl
    | none =>
      rw [get_engine_eq st url dburl, hlo]
      show List.lookup u (st.engines ++ [(url.getD dburl, st.nextId)]) = some e
      rw [lookup_append, hl, optOr_some_left]

/-- C9 witness: from the empty cache, two calls with the same URL return the
    same handle, a call with the default URL omitted resolves to it, a
    different URL gets a distinct handle, and the first entry survives. -/
theorem claim_C9_engine_cache_witness :
    get_engine (get_engine ⟨[], 0⟩ (some "sqlite:a") "sqlite:d").2 (some "sqlite:a") "sqlite:d"
      = get_engine ⟨[], 0⟩ (some "sqlite:a") "sqlite:d"
    ∧ (get_engine (get_engine ⟨[], 0⟩ (some "sqlite:a") "sqlite:d").2 (some "sqlite:b") "sqlite:d").1
      ≠ (get_engine ⟨[], 0⟩ (some "sqlite:a") "sqlite:d").1
    ∧ (get_engine (get_engine ⟨[], 0⟩ none "sqlite:d").2 (some "sqlite:a") "sqlite:d").1
      ≠ (get_engine ⟨[], 0⟩ none "sqlite:d").1
    ∧ List.lookup "sqlite:a"
        ((get_engine ⟨[("sqlite:a", 0)], 1⟩ (some "sqlite:b") "sqlite:d").2.engines) = some 0 := by
  refine ⟨?_, ?_, ?_, ?_⟩
  · exact (claim_C9_engine_cache ⟨[], 0⟩ (some "sqlite:a") (some "sqlite:a") (some "sqlite:a")
      "sqlite:d" (by constructor <;> simp)).1
  · exact (claim_C9_engine_cache ⟨[], 0⟩ (some "sqlite:a") (some "sqlite:a") (some "sqlite:b")
      "sqlite:d" (by constructor <;> simp)).2.1 (by decide)
  · exact (claim_C9_engine_cache ⟨[], 0⟩ none none (some "sqlite:a")
      "sqlite:d" (by constructor <;> simp)).2.1 (by decide)
  · exact (claim_C9_engine_cache ⟨[("sqlite:a", 0)], 1⟩ (some "sqlite:b") (some "sqlite:b")
      (some "sqlite:b") "sqlite:d" (by constructor <;> simp [wfEngineState])).2.2
      "sqlite:a" 0 (by decide)

theorem matchesEntry_iff (obsdate : Int) (obsutcHours : ℚ) (previnfo currinfo : ObsEntry) :
    matchesEntry obsdate obsutcHours previnfo currinfo = true
      ↔ (previnfo.localdate ≤ obsdate ∧ obsdate ≤ currinfo.localdate ∧
         previnfo.utcstart - HOURS_PER_MIN ≤ obsutcHours ∧
         obsutcHours ≤ currinfo.utcstart + HOURS_PER_MIN) := by
  simp [matchesEntry, Bool.and_eq_true, decide_eq_true_eq, and_assoc]

theorem scanStep_armed (target : String) (normalize : String → String) (obsdate : Int)
    (obsutcHours : ℚ) (st : ScanState) (previnfo currinfo : ObsEntry)
    (hc : st.check = true) (hp : st.previnfo = some previnfo) :
    (scanStep target normalize obsdate obsutcHours st (some currinfo)).logentries
      = if matchesEntry obsdate obsutcHours previnfo currinfo
        then st.logentries ++ [previnfo] else st.logentries := by
  unfold scanStep
  rw [hc, hp]

/-- C1 counterexample: the claim says a candidate is recorded exactly when
    the target UTC time is within one minute of the start time of the
    previous entry and within one minute of the start time of the current
    entry; but with a previous entry starting at hour 10, a current entry
    starting at hour 12 and a target at hour 11 (a full hour from both), the
    scan of get_obslog_entry does record the previous entry. -/
theorem claim_C1_counterexample :
    (scanLines "J1" id 0 11
        [some ⟨0, "0001", 10, 0, "J1", 0, 0, "", ""⟩,
         some ⟨0, "0002", 12, 0, "X", 0, 0, "", ""⟩]).logentries
      = [⟨0, "0001", 10, 0, "J1", 0, 0, "", ""⟩]
    ∧ specWithinOneMinuteOfBoth 0 11 ⟨0, "0001", 10, 0, "J1", 0, 0, "", ""⟩
        ⟨0, "0002", 12, 0, "X", 0, 0, "", ""⟩ = false := by
  constructor
  · simp [scanLines, scanStep, matchesEntry, HOURS_PER_MIN]
    norm_num
  · simp [specWithinOneMinuteOfBoth, HOURS_PER_MIN]
    norm_num

/-- C1 as amended: when the check flag was armed by the previous entry, the
    previous entry is recorded exactly when the target local date lies
    between the local dates of the previous and current entries (inclusive)
    and the target UTC time of day is at least the start time of the
    previous entry minus one minute and at most the start time of the
    current entry plus one minute; in particular a target 61 seconds below
    the start of the previous entry, or 61 seconds above the start of the
    current entry, never matches, while one 59 seconds below the start of
    the previous entry, or 59 seconds above the start of the current entry,
    matches whenever the remaining bracket conditions hold. -/
theorem claim_C1_obslog_match (target : String) (normalize : String → String)
    (obsdate : Int) (obsutcHours : ℚ) (st : ScanState) (previnfo currinfo : ObsEntry)
    (hc : st.check = true) (hp : st.previnfo = some previnfo) :
    ((scanStep target normalize obsdate obsutcHours st (some currinfo)).logentries
        = st.logentries ++ [previnfo]
      ↔ (previnfo.localdate ≤ obsdate ∧ obsdate ≤ currinfo.localdate ∧
         previnfo.utcstart - HOURS_PER_MIN ≤ obsutcHours ∧
         obsutcHours ≤ currinfo.utcstart + HOURS_PER_MIN))
    ∧ (obsutcHours = previnfo.utcstart - 61/3600 →
        (scanStep target normalize obsdate obsutcHours st (some currinfo)).logentries
          = st.logentries)
    ∧ (obsutcHours = currinfo.utcstart + 61/3600 →
        (scanStep target normalize obsdate obsutcHours st (some currinfo)).logentries
          = st.logentries)
    ∧ (obsutcHours = previnfo.utcstart - 59/3600 →
        previnfo.localdate ≤ obsdate → obsdate ≤ currinfo.localdate →
        obsutcHours ≤ currinfo.utcstart + HOURS_PER_MIN →
        (scanStep target normalize obsdate obsutcHours st (some currinfo)).logentries
          = st.logentries ++ [previnfo])
    ∧ (obsutcHours = currinfo.utcstart + 59/3600 →
        previnfo.localdate ≤ obsdate → obsdate ≤ currinfo.localdate →
        previnfo.utcstart - HOURS_PER_MIN ≤ obsutcHours →
        (scanStep target normalize obsdate obsutcHours st (some currinfo)).logentries
          = st.logentries ++ [previnfo]) := by
  have hred := scanStep_armed target normalize obsdate obsutcHours st previnfo currinfo hc hp
  refine ⟨?_, fun he => ?_, fun he => ?_, fun he h1 h2 h4 => ?_, fun he h1 h2 h3 => ?_⟩
  · rw [hred]
    constructor
    · intro h
      by_cases hm : matchesEntry obsdate obsutcHours previnfo currinfo = true
      · exact (matchesEntry_iff obsdate obsutcHours previnfo currinfo).mp hm
      · rw [if_neg hm] at h
        exact absurd h.symm (by simp)
    · intro hprops
      rw [if_pos ((matchesEntry_iff obsdate obsutcHours previnfo currinfo).mpr hprops)]
  · have hm : ¬ matchesEntry obsdate obsutcHours previnfo currinfo = true := by
      rw [matchesEntry_iff]
      rintro ⟨-, -, h3, -⟩
      rw [he] at h3
      simp only [HOURS_PER_MIN] at h3
      linarith
    rw [hred, if_neg hm]
  · have hm : ¬ matchesEntry obsdate obsutcHours previnfo currinfo = true := by
      rw [matchesEntry_iff]
      rintro ⟨-, -, -, h4⟩
      rw [he] at h4
      simp only [HOURS_PER_MIN] at h4
      linarith
    rw [hred, if_neg hm]
  · have hm : matchesEntry obsdate obsutcHours previnfo currinfo = true := by
      rw [matchesEntry_iff]
      refine ⟨h1, h2, ?_, h4⟩
      rw [he]
      simp only [HOURS_PER_MIN]
      linarith
    rw [hred, if_pos hm]
  · have hm : matchesEntry obsdate obsutcHours previnfo currinfo = true := by
      rw [matchesEntry_iff]
      refine ⟨h1, h2, h3, ?_⟩
      rw [he]
      simp only [HOURS_PER_MIN]
      linarith
    rw [hred, if_pos hm]

/-- C1 witness: a target 59 seconds below the start of the previous entry is
    recorded, a target 61 seconds below it is not. -/
theorem claim_C1_obslog_match_witness :
    (scanStep "J1" id 0 (10 - 59/3600)
        ⟨[], true, some ⟨0, "0001", 10, 0, "J1", 0, 0, "", ""⟩⟩
        (some ⟨0, "0002", 12, 0, "X", 0, 0, "", ""⟩)).logentries
      = [] ++ [⟨0, "0001", 10, 0, "J1", 0, 0, "", ""⟩]
    ∧ (scanStep "J1" id 0 (10 - 61/3600)
        ⟨[], true, some ⟨0, "0001", 10, 0, "J1", 0, 0, "", ""⟩⟩
        (some ⟨0, "0002", 12, 0, "X", 0, 0, "", ""⟩)).logentries = [] := by
  constructor
  · exact (claim_C1_obslog_match "J1" id 0 (10 - 59/3600)
      ⟨[], true, some ⟨0, "0001", 10, 0, "J1", 0, 0, "", ""⟩⟩
      ⟨0, "0001", 10, 0, "J1", 0, 0, "", ""⟩ ⟨0, "0002", 12, 0, "X", 0, 0, "", ""⟩
      rfl rfl).2.2.2.1 (by norm_num) (by norm_num) (by norm_num)
      (by norm_num [HOURS_PER_MIN])
  · exact (claim_C1_obslog_match "J1" id 0 (10 - 61/3600)
      ⟨[], true, some ⟨0, "0001", 10, 0, "J1", 0, 0, "", ""⟩⟩
      ⟨0, "0001", 10, 0, "J1", 0, 0, "", ""⟩ ⟨0, "0002", 12, 0, "X", 0, 0, "", ""⟩
      rfl rfl).2.1 (by norm_num)
